import Mathlib

/-!
Shallow embedding of the office-local-bridge desktop backend
(`desktop-app/src-tauri/src/config.rs` and `commands.rs`) and proofs about
its configuration-merge, collection-mutation, process-supervision and
HTTP-facade logic.

Conventions of the embedding:
* Rust `u16` / `u64` values are `Nat` with explicit `% 2 ^ 16` at the one
  place the code performs an `as u16` cast; `i32`/`i64` are `Int`.
* Rust `f32` fields (model generation parameters) are carried as opaque
  bit patterns (`F32`): the config layer never computes with them.
* `serde_json::Value` is the inductive `Json`; `Value::get`, `as_u64`,
  `as_i64`, `as_str`, `as_bool` are translated directly.
* `std::collections::HashMap<String, String>` is an association list.
* File-system reads are a `FileReadResult` argument (`fs::read_to_string`
  either yields the file's text or an IO error); file-system writes are an
  `Except String Unit` argument (`write_config` either succeeds or yields
  an error string).  Commands return the response envelope together with
  the stored document as it is after the command (unchanged when nothing
  was written).
* Outbound HTTP calls are an `HttpResponse` argument: either a transport
  error or a status code with an optional parsed JSON body.
-/

/-- Model of `serde_json::Value`.  Integral JSON numbers are `int`;
non-integral numbers are collapsed to `float` since every numeric accessor
used by the code (`as_u64`, `as_i64`, `as_bool`, `as_str`) returns `None`
on them. -/
inductive Json where
  | null : Json
  | bool (b : Bool) : Json
  | int (i : Int) : Json
  | float : Json
  | str (s : String) : Json
  | arr (xs : List Json) : Json
  | obj (kvs : List (String × Json)) : Json

/-- Model of `Value::get(key)`: object member lookup, `none` on any
non-object value. -/
def Json.get (j : Json) (key : String) : Option Json :=
  match j with
  | .obj kvs => kvs.lookup key
  | _ => none

/-- Model of `Value::as_u64`: some for integral numbers representable as a
`u64`, none otherwise. -/
def Json.as_u64 : Json → Option Nat
  | .int i => if 0 ≤ i ∧ i < 2 ^ 64 then some i.toNat else none
  | _ => none

/-- Model of `Value::as_i64`: some for integral numbers representable as an
`i64`, none otherwise. -/
def Json.as_i64 : Json → Option Int
  | .int i => if -(2 ^ 63) ≤ i ∧ i < 2 ^ 63 then some i else none
  | _ => none

/-- Model of `Value::as_str`. -/
def Json.as_str : Json → Option String
  | .str s => some s
  | _ => none

/-- Model of `Value::as_bool`. -/
def Json.as_bool : Json → Option Bool
  | .bool b => some b
  | _ => none

/-- Opaque stand-in for a Rust `f32`, identified by its bit pattern; the
configuration layer only stores and serializes these values. -/
structure F32 where
  bits : Nat
deriving DecidableEq

/-- Mirror of `enum AIProviderType` in `config.rs`. -/
inductive AIProviderType where
  | openai | azure | anthropic | ollama | custom
deriving DecidableEq

/-- Mirror of `enum ModelType` in `config.rs`. -/
inductive ModelType where
  | chat | embedding | multimodal
deriving DecidableEq

/-- Mirror of `struct SelectedModel` in `config.rs`. -/
structure SelectedModel where
  id : String
  name : String
  display_name : Option String
  model_type : ModelType
  context_window : Option Int
  supports_vision : Option Bool
  supports_tools : Option Bool
  supports_streaming : Option Bool
deriving DecidableEq

/-- Mirror of `struct AIProviderConfig` in `config.rs`. -/
structure AIProviderConfig where
  id : String
  provider_type : AIProviderType
  name : String
  enabled : Bool
  is_default : Bool
  api_key : String
  base_url : Option String
  azure_endpoint : Option String
  azure_deployment : Option String
  azure_api_version : Option String
  custom_headers : Option (List (String × String))
  selected_models : Option (List SelectedModel)
  connection_status : Option String
  last_tested_at : Option Int
deriving DecidableEq

/-- Mirror of `struct ModelConfig` in `config.rs`. -/
structure ModelConfig where
  id : String
  provider_id : String
  name : String
  display_name : String
  enabled : Bool
  is_default : Bool
  max_tokens : Option Int
  temperature : Option F32
  top_p : Option F32
  frequency_penalty : Option F32
  presence_penalty : Option F32
  supports_vision : Option Bool
  supports_tools : Option Bool
  supports_streaming : Option Bool
  context_window : Option Int
deriving DecidableEq

/-- Mirror of `struct McpServerConfig` in `config.rs`. -/
structure McpServerConfig where
  id : String
  name : String
  command : String
  args : Option (List String)
  cwd : Option String
  env : Option (List (String × String))
  enabled : Bool
  auto_start : Bool
deriving DecidableEq

/-- Mirror of `struct BridgeConfig` in `config.rs`; `port` is a `u16`
carried as a `Nat`. -/
structure BridgeConfig where
  version : Int
  port : Nat
  host : String
  log_level : String
  default_provider_id : Option String
  default_chat_model_id : Option String
  default_embedding_model_id : Option String
  auto_start : Bool
  minimize_to_tray : Bool
deriving DecidableEq

/-- Mirror of `impl Default for BridgeConfig`. -/
def BridgeConfig.default : BridgeConfig where
  version := 1
  port := 3001
  host := "localhost"
  log_level := "info"
  default_provider_id := none
  default_chat_model_id := none
  default_embedding_model_id := none
  auto_start := true
  minimize_to_tray := true

/-- Mirror of `struct ProvidersConfig` with its `Default` (version 1,
empty list). -/
structure ProvidersConfig where
  version : Int
  providers : List AIProviderConfig
deriving DecidableEq

def ProvidersConfig.default : ProvidersConfig where
  version := 1
  providers := []

/-- Mirror of `struct ModelsConfig` with its `Default`. -/
structure ModelsConfig where
  version : Int
  models : List ModelConfig
deriving DecidableEq

def ModelsConfig.default : ModelsConfig where
  version := 1
  models := []

/-- Mirror of `struct McpServersConfig` with its `Default`. -/
structure McpServersConfig where
  version : Int
  servers : List McpServerConfig
deriving DecidableEq

def McpServersConfig.default : McpServersConfig where
  version := 1
  servers := []

/-- Mirror of `struct ApiResponse<T>` in `commands.rs`. -/
structure ApiResponse (T : Type) where
  success : Bool
  data : Option T
  error : Option String
deriving DecidableEq

/-- Mirror of `ApiResponse::success(data)`. -/
def ApiResponse.ok {T : Type} (data : T) : ApiResponse T where
  success := true
  data := some data
  error := none

/-- Mirror of `ApiResponse::error(message)`. -/
def ApiResponse.err {T : Type} (message : String) : ApiResponse T where
  success := false
  data := none
  error := some message

/-- Outcome of `fs::read_to_string`: the file's text, or an IO error
(missing file and unreadable file both land in `err`). -/
inductive FileReadResult where
  | ok (content : String) : FileReadResult
  | err (msg : String) : FileReadResult

/-- Mirror of `read_config<T>` in `config.rs`: on a read error return the
default, on unparsable content (`serde_json::from_str` fails, modelled by
the `parse` argument returning `none`) also return the default. -/
def read_config {T : Type} (dflt : T) (parse : String → Option T)
    (file : FileReadResult) : T :=
  match file with
  | .ok content => (parse content).getD dflt
  | .err _ => dflt

/-!
Configuration merge (`update_config`, commands.rs lines 66-99).  The Rust
body reads the current config, then runs a sequence of `if let` blocks,
one per recognized key, and finally writes the merged value back.
-/

/-- Mirror of the merge body of `update_config` (commands.rs 70-93): the
sequence of `if let` field updates applied to the current config, in source
order.  `port as u16` is the truncating cast, written `% 2 ^ 16`. -/
def mergeConfig (current : BridgeConfig) (config : Json) : BridgeConfig :=
  let c1 := match (config.get "port").bind Json.as_u64 with
    | some port => { current with port := port % 2 ^ 16 }
    | none => current
  let c2 := match (config.get "host").bind Json.as_str with
    | some host => { c1 with host := host }
    | none => c1
  let c3 := match (config.get "logLevel").bind Json.as_str with
    | some log_level => { c2 with log_level := log_level }
    | none => c2
  let c4 := match config.get "defaultProviderId" with
    | some v => { c3 with default_provider_id := v.as_str }
    | none => c3
  let c5 := match config.get "defaultChatModelId" with
    | some v => { c4 with default_chat_model_id := v.as_str }
    | none => c4
  let c6 := match config.get "defaultEmbeddingModelId" with
    | some v => { c5 with default_embedding_model_id := v.as_str }
    | none => c5
  let c7 := match (config.get "autoStart").bind Json.as_bool with
    | some auto_start => { c6 with auto_start := auto_start }
    | none => c6
  let c8 := match (config.get "minimizeToTray").bind Json.as_bool with
    | some minimize_to_tray => { c7 with minimize_to_tray := minimize_to_tray }
    | none => c7
  c8

/-- Field-by-field description of the merge, written from the observed
behaviour: `port`, `host`, `logLevel`, `autoStart`, `minimizeToTray` are
updated only when present with the expected JSON type and otherwise left
unchanged; the three default-id keys, when present with ANY value, are
overwritten with `as_str` of that value (so a present non-string value
clears the field to `none`); `version` and unknown keys are never
touched. -/
def mergeConfigSpec (current : BridgeConfig) (config : Json) : BridgeConfig where
  version := current.version
  port := match (config.get "port").bind Json.as_u64 with
    | some port => port % 2 ^ 16
    | none => current.port
  host := ((config.get "host").bind Json.as_str).getD current.host
  log_level := ((config.get "logLevel").bind Json.as_str).getD current.log_level
  default_provider_id := match config.get "defaultProviderId" with
    | some v => v.as_str
    | none => current.default_provider_id
  default_chat_model_id := match config.get "defaultChatModelId" with
    | some v => v.as_str
    | none => current.default_chat_model_id
  default_embedding_model_id := match config.get "defaultEmbeddingModelId" with
    | some v => v.as_str
    | none => current.default_embedding_model_id
  auto_start := ((config.get "autoStart").bind Json.as_bool).getD current.auto_start
  minimize_to_tray :=
    ((config.get "minimizeToTray").bind Json.as_bool).getD current.minimize_to_tray

/-- Mirror of the command `update_config` (commands.rs 66-99): merge, then
write the merged config; on a write failure the stored file keeps its old
content and the error string is returned in the envelope.  The second
component is the stored config after the command. -/
def update_config (write : Except String Unit) (current : BridgeConfig)
    (config : Json) : ApiResponse BridgeConfig × BridgeConfig :=
  let merged := mergeConfig current config
  match write with
  | .ok _ => (ApiResponse.ok merged, merged)
  | .error e => (ApiResponse.err e, current)

/-!
Provider / model / MCP-server collection commands (commands.rs).
Each command is a function of the stored collection (as produced by
`read_config`), the entry argument, and the outcome the file write would
have; it returns the response envelope and the stored collection after the
command.
-/

/-- Mirror of `add_provider` (commands.rs 112-126): reject when the id is
already present, otherwise push and write. -/
def add_provider (write : Except String Unit) (config : ProvidersConfig)
    (provider : AIProviderConfig) : ApiResponse AIProviderConfig × ProvidersConfig :=
  if config.providers.any (fun p => p.id == provider.id) then
    (ApiResponse.err "提供商 ID 已存在", config)
  else
    match write with
    | .ok _ =>
        (ApiResponse.ok provider,
         { config with providers := config.providers ++ [provider] })
    | .error e => (ApiResponse.err e, config)

/-- Mirror of `update_provider` (commands.rs 130-142): replace the entry at
the position of the matching id, error when the id is absent.  No name
check is performed. -/
def update_provider (write : Except String Unit) (config : ProvidersConfig)
    (provider : AIProviderConfig) : ApiResponse AIProviderConfig × ProvidersConfig :=
  match config.providers.findIdx? (fun p => p.id == provider.id) with
  | some index =>
      match write with
      | .ok _ =>
          (ApiResponse.ok provider,
           { config with providers := config.providers.set index provider })
      | .error e => (ApiResponse.err e, config)
  | none => (ApiResponse.err "提供商不存在", config)

/-- Mirror of `add_model` (commands.rs 234-247). -/
def add_model (write : Except String Unit) (config : ModelsConfig)
    (model : ModelConfig) : ApiResponse ModelConfig × ModelsConfig :=
  if config.models.any (fun m => m.id == model.id) then
    (ApiResponse.err "模型 ID 已存在", config)
  else
    match write with
    | .ok _ =>
        (ApiResponse.ok model, { config with models := config.models ++ [model] })
    | .error e => (ApiResponse.err e, config)

/-- Mirror of `add_mcp_server` (commands.rs 293-312): reject a duplicate
id, then reject a duplicate name, otherwise push and write. -/
def add_mcp_server (write : Except String Unit) (config : McpServersConfig)
    (server : McpServerConfig) : ApiResponse McpServerConfig × McpServersConfig :=
  if config.servers.any (fun s => s.id == server.id) then
    (ApiResponse.err "MCP 服务器 ID 已存在", config)
  else if config.servers.any (fun s => s.name == server.name) then
    (ApiResponse.err "MCP 服务器名称已存在", config)
  else
    match write with
    | .ok _ =>
        (ApiResponse.ok server, { config with servers := config.servers ++ [server] })
    | .error e => (ApiResponse.err e, config)

/-- Mirror of `update_mcp_server` (commands.rs 316-333): when the id is
present, reject a name that also belongs to a different id; otherwise
replace in place and write. -/
def update_mcp_server (write : Except String Unit) (config : McpServersConfig)
    (server : McpServerConfig) : ApiResponse McpServerConfig × McpServersConfig :=
  match config.servers.findIdx? (fun s => s.id == server.id) with
  | some index =>
      if config.servers.any (fun s => s.id != server.id && s.name == server.name) then
        (ApiResponse.err "MCP 服务器名称已存在", config)
      else
        match write with
        | .ok _ =>
            (ApiResponse.ok server,
             { config with servers := config.servers.set index server })
        | .error e => (ApiResponse.err e, config)
  | none => (ApiResponse.err "MCP 服务器不存在", config)

/-!
HTTP facade and process supervision.
-/

/-- Outcome of one outbound `reqwest` call: a transport failure, or a
response with its HTTP status code and the result of parsing its body as
JSON (`none` when the body is not valid JSON). -/
inductive HttpResponse where
  | response (status : Nat) (body : Option Json) : HttpResponse
  | transportError (msg : String) : HttpResponse

/-- Model of `reqwest::StatusCode::is_success`: 2xx. -/
def status_is_success (status : Nat) : Bool :=
  200 ≤ status && status < 300

/-- Mirror of `struct BridgeStatus` in `commands.rs`. -/
structure BridgeStatus where
  running : Bool
  port : Nat
  url : String
  uptime : Option Int
deriving DecidableEq

/-- The base URL string the commands build, Rust
`format` of "http://", host, ":", port. -/
def bridgeUrl (config : BridgeConfig) : String :=
  "http://" ++ config.host ++ ":" ++ toString config.port

/-- Mirror of `get_bridge_status` (commands.rs 589-628): GET /health with a
2-second timeout; on 2xx report running with the uptime field extracted
leniently from the body; on non-2xx or transport error report not running,
still inside a success envelope. -/
def get_bridge_status (config : BridgeConfig) (health : HttpResponse) :
    ApiResponse BridgeStatus :=
  match health with
  | .response status body =>
      if status_is_success status then
        let uptime := body.bind (fun v => (v.get "uptime").bind Json.as_i64)
        ApiResponse.ok
          { running := true, port := config.port, url := bridgeUrl config,
            uptime := uptime }
      else
        ApiResponse.ok
          { running := false, port := config.port, url := bridgeUrl config,
            uptime := none }
  | .transportError _ =>
      ApiResponse.ok
        { running := false, port := config.port, url := bridgeUrl config,
          uptime := none }

/-- Observable side effects of `delete_mcp_server`, in order. -/
inductive Effect where
  | readMainConfigFile : Effect
  | httpPost (url : String) : Effect
  | readServersFile : Effect
  | writeServersFile (servers : List McpServerConfig) : Effect
deriving DecidableEq

/-- Mirror of `delete_mcp_server` (commands.rs 337-366): read the main
config, POST a stop request for the id to the bridge service (its outcome
`stopResult` is bound to `_` in the source and never inspected), then read
the servers collection, drop the matching id, and report not-found when
the length is unchanged; otherwise write the shrunk collection.  Returns
the ordered effect trace, the envelope, and the stored collection after
the command. -/
def delete_mcp_server (write : Except String Unit) (mainConfig : BridgeConfig)
    (stopResult : HttpResponse) (config : McpServersConfig) (id : String) :
    List Effect × (ApiResponse Bool × McpServersConfig) :=
  let stop_url := bridgeUrl mainConfig ++ "/api/mcp/servers/" ++ id ++ "/stop"
  let prefixTrace := [Effect.readMainConfigFile, Effect.httpPost stop_url,
    Effect.readServersFile]
  let remaining := config.servers.filter (fun s => !(s.id == id))
  if remaining.length == config.servers.length then
    (prefixTrace, (ApiResponse.err "MCP 服务器不存在", config))
  else
    match write with
    | .ok _ =>
        (prefixTrace ++ [Effect.writeServersFile remaining],
         (ApiResponse.ok true, { config with servers := remaining }))
    | .error e =>
        (prefixTrace ++ [Effect.writeServersFile remaining],
         (ApiResponse.err e, config))

/-- Stand-in for `std::process::Child`: the handle is identified by the
child's OS process id. -/
structure Child where
  pid : Nat
deriving DecidableEq

/-- Outcome of `Child::try_wait` on the tracked handle: the process has
already exited, is still alive, or the probe itself failed. -/
inductive ProbeResult where
  | exited : ProbeResult
  | alive : ProbeResult
  | probeError (msg : String) : ProbeResult

/-- Outcome of `Command::spawn`. -/
inductive SpawnResult where
  | spawned (child : Child) : SpawnResult
  | failed (msg : String) : SpawnResult

/-- Mirror of `start_bridge_service` (commands.rs 632-677): with a tracked
handle, probe it with `try_wait`; a live process yields the already-running
error with the handle kept; an exited process clears the handle and falls
through to spawning; a probe failure yields an error with the handle kept.
With no tracked handle (or after clearing a stale one) spawn: on success
store the new handle, on failure report the spawn error.  Returns the
envelope and the tracked handle after the command. -/
def start_bridge_service (state : Option Child) (probe : ProbeResult)
    (spawn : SpawnResult) : ApiResponse Bool × Option Child :=
  let proceed : ApiResponse Bool × Option Child :=
    match spawn with
    | .spawned child => (ApiResponse.ok true, some child)
    | .failed e => (ApiResponse.err ("启动服务失败: " ++ e), none)
  match state with
  | some child =>
      match probe with
      | .exited => proceed
      | .alive => (ApiResponse.err "桥接服务已在运行中", some child)
      | .probeError e => (ApiResponse.err ("检查进程状态失败: " ++ e), some child)
  | none => proceed

/-- The commands of `commands.rs` that issue an HTTP request to the bridge
service (the stop call inside `delete_mcp_server` counts as one call). -/
inductive BridgeClientOp where
  | deleteMcpServerStop
  | getMcpServerStatus
  | startMcpServer
  | stopMcpServer
  | restartMcpServer
  | getMcpServerTools
  | getLogs
  | getBridgeStatus
  | validateProvider
  | getProviderModels
  | testModel
deriving DecidableEq

/-- The request timeout, in seconds, each such command configures on the
`reqwest` client it builds, transcribed from the
`Client::builder().timeout(Duration::from_secs(n))` calls in commands.rs;
`none` where the command uses `Client::new()` and sets no timeout. -/
def clientTimeoutSecs : BridgeClientOp → Option Nat
  | .deleteMcpServerStop => some 5
  | .getMcpServerStatus => some 5
  | .startMcpServer => none
  | .stopMcpServer => none
  | .restartMcpServer => none
  | .getMcpServerTools => none
  | .getLogs => none
  | .getBridgeStatus => some 2
  | .validateProvider => some 30
  | .getProviderModels => some 30
  | .testModel => some 60

/-!
Shared helper lemmas.
-/

/-- The sequential merge of `update_config` computes each field
independently: it equals the field-by-field description. -/
theorem mergeConfig_fieldwise (current : BridgeConfig) (config : Json) :
    mergeConfig current config = mergeConfigSpec current config := by
  unfold mergeConfig mergeConfigSpec
  cases (config.get "port").bind Json.as_u64 <;>
  cases (config.get "host").bind Json.as_str <;>
  cases (config.get "logLevel").bind Json.as_str <;>
  cases config.get "defaultProviderId" <;>
  cases config.get "defaultChatModelId" <;>
  cases config.get "defaultEmbeddingModelId" <;>
  cases (config.get "autoStart").bind Json.as_bool <;>
  cases (config.get "minimizeToTray").bind Json.as_bool <;>
  rfl

/-!
Claim theorems.
-/

/-- C1 (amended): the partial update `update_config` touches exactly the
recognized keys: `port`, `host`, `logLevel`, `autoStart`, `minimizeToTray`
are updated only when present with the expected JSON type and otherwise
keep their current value; unknown keys are ignored and `version` is never
touched; but the three keys `defaultProviderId`, `defaultChatModelId`,
`defaultEmbeddingModelId`, when present with a value of the wrong type,
are not ignored: the field is overwritten with `none`.  Stated as equality
with the field-by-field description `mergeConfigSpec`, both for the merge
body and for the stored document after a successful write. -/
theorem update_config_merges_fieldwise (current : BridgeConfig) (config : Json) :
    mergeConfig current config = mergeConfigSpec current config
    ∧ (update_config (Except.ok ()) current config).2 = mergeConfigSpec current config :=
  ⟨mergeConfig_fieldwise current config, mergeConfig_fieldwise current config⟩

set_option maxRecDepth 4096 in
/-- C1 counterexample: a recognized key (`defaultProviderId`) given with a
type-mismatched value (the number 42) does NOT leave the field unchanged:
it clears the previously stored identifier. -/
theorem update_config_type_mismatch_not_ignored :
    (mergeConfig { BridgeConfig.default with default_provider_id := some "p1" }
        (Json.obj [("defaultProviderId", Json.int 42)])).default_provider_id
      ≠ ({ BridgeConfig.default with default_provider_id := some "p1" } :
          BridgeConfig).default_provider_id := by
  show (none : Option String) ≠ some "p1"
  simp

/-- C10: a `port` value that is a JSON non-negative integer representable
as a `u64` is applied by truncation to 16 bits: the stored port is the
value modulo 2^16. -/
theorem update_config_port_truncates (current : BridgeConfig) (config : Json)
    (v : Nat) (h : config.get "port" = some (Json.int v)) (hv : v < 2 ^ 64) :
    ((update_config (Except.ok ()) current config).2).port = v % 2 ^ 16 := by
  have h1 : (0 : Int) ≤ (v : Int) := Int.natCast_nonneg v
  have h2 : (v : Int) < 2 ^ 64 := by exact_mod_cast hv
  have hval : Json.as_u64 (Json.int v) = some v := by
    simp only [Json.as_u64, if_pos (And.intro h1 h2), Int.toNat_natCast]
  have hbind : (config.get "port").bind Json.as_u64 = some v :=
    (congrArg (fun o => o.bind Json.as_u64) h).trans ((Option.some_bind _ _).trans hval)
  show (mergeConfig current config).port = v % 2 ^ 16
  rw [mergeConfig_fieldwise current config]
  simp only [mergeConfigSpec, hbind]

/-- C10 witness: updating with port 70000 stores port 4464. -/
theorem update_config_port_truncates_witness :
    ((update_config (Except.ok ()) BridgeConfig.default
        (Json.obj [("port", Json.int 70000)])).2).port = 4464 := by
  have h := update_config_port_truncates BridgeConfig.default
      (Json.obj [("port", Json.int 70000)]) 70000 rfl (by norm_num)
  exact h.trans (by norm_num)

/-- C3: with a tracked handle whose process is still alive, `start`
reports already-running and keeps the process handle untouched; with a
tracked handle whose process has exited, the stale handle is discarded
and the spawn proceeds: a successful spawn replaces the handle, a failed
spawn leaves no handle. -/
theorem start_bridge_service_single_instance (child newChild : Child)
    (e : String) (spawn : SpawnResult) :
    start_bridge_service (some child) ProbeResult.alive spawn
      = (ApiResponse.err "桥接服务已在运行中", some child)
    ∧ start_bridge_service (some child) ProbeResult.exited (SpawnResult.spawned newChild)
      = (ApiResponse.ok true, some newChild)
    ∧ start_bridge_service (some child) ProbeResult.exited (SpawnResult.failed e)
      = (ApiResponse.err ("启动服务失败: " ++ e), none) :=
  ⟨rfl, rfl, rfl⟩

/-- C5: `read_config` is total and returns the default on a read error
(missing or unreadable file) and on unparsable content, and those two
cases are indistinguishable in the result. -/
theorem read_config_total_default {T : Type} (dflt : T)
    (parse : String → Option T) (msg content : String) :
    read_config dflt parse (FileReadResult.err msg) = dflt
    ∧ (parse content = none →
        read_config dflt parse (FileReadResult.ok content) = dflt)
    ∧ (parse content = none →
        read_config dflt parse (FileReadResult.ok content)
          = read_config dflt parse (FileReadResult.err msg)) := by
  refine ⟨rfl, fun h => ?_, fun h => ?_⟩ <;>
    simp [read_config, h]

/-- C5 witness: reading corrupt content for the main config yields the
default config, the same value a missing file yields. -/
theorem read_config_total_default_witness :
    read_config BridgeConfig.default (fun _ => none)
        (FileReadResult.ok "not json") = BridgeConfig.default
    ∧ read_config BridgeConfig.default (fun _ => none)
        (FileReadResult.ok "not json")
      = read_config BridgeConfig.default (fun _ => none)
        (FileReadResult.err "no such file") :=
  ⟨(read_config_total_default BridgeConfig.default (fun _ => none)
      "no such file" "not json").2.1 rfl,
   (read_config_total_default BridgeConfig.default (fun _ => none)
      "no such file" "not json").2.2 rfl⟩

/-- C7: when the health probe fails at the transport level or returns a
non-2xx status, `get_bridge_status` returns a success envelope with
running false, the configured port, the built url and no uptime — never an
error envelope. -/
theorem get_bridge_status_unreachable_not_error (config : BridgeConfig)
    (msg : String) (status : Nat) (body : Option Json) :
    get_bridge_status config (HttpResponse.transportError msg)
      = ApiResponse.ok
          { running := false, port := config.port, url := bridgeUrl config,
            uptime := none }
    ∧ (status_is_success status = false →
        get_bridge_status config (HttpResponse.response status body)
          = ApiResponse.ok
              { running := false, port := config.port, url := bridgeUrl config,
                uptime := none }) := by
  refine ⟨rfl, fun h => ?_⟩
  simp [get_bridge_status, h]

/-- C7 witness: with the default config, a connection failure and an HTTP
500 both produce the running-false success envelope. -/
theorem get_bridge_status_unreachable_not_error_witness :
    get_bridge_status BridgeConfig.default
        (HttpResponse.transportError "connection refused")
      = ApiResponse.ok
          { running := false, port := 3001, url := bridgeUrl BridgeConfig.default,
            uptime := none }
    ∧ get_bridge_status BridgeConfig.default (HttpResponse.response 500 none)
      = ApiResponse.ok
          { running := false, port := 3001, url := bridgeUrl BridgeConfig.default,
            uptime := none } :=
  ⟨(get_bridge_status_unreachable_not_error BridgeConfig.default
      "connection refused" 500 none).1,
   (get_bridge_status_unreachable_not_error BridgeConfig.default
      "connection refused" 500 none).2 rfl⟩

/-- C8 (amended): only part of the bridge-service calls configure a
bounded request timeout (health 2 s; server status and the delete-time
stop call 5 s; provider validation and model listing 30 s; model test
60 s); the start/stop/restart server, tools and logs calls build a
default client with no timeout configured. -/
theorem bridge_client_timeouts :
    clientTimeoutSecs BridgeClientOp.getBridgeStatus = some 2
    ∧ clientTimeoutSecs BridgeClientOp.getMcpServerStatus = some 5
    ∧ clientTimeoutSecs BridgeClientOp.deleteMcpServerStop = some 5
    ∧ clientTimeoutSecs BridgeClientOp.validateProvider = some 30
    ∧ clientTimeoutSecs BridgeClientOp.getProviderModels = some 30
    ∧ clientTimeoutSecs BridgeClientOp.testModel = some 60
    ∧ clientTimeoutSecs BridgeClientOp.startMcpServer = none
    ∧ clientTimeoutSecs BridgeClientOp.stopMcpServer = none
    ∧ clientTimeoutSecs BridgeClientOp.restartMcpServer = none
    ∧ clientTimeoutSecs BridgeClientOp.getMcpServerTools = none
    ∧ clientTimeoutSecs BridgeClientOp.getLogs = none :=
  ⟨rfl, rfl, rfl, rfl, rfl, rfl, rfl, rfl, rfl, rfl, rfl⟩

/-- C8 counterexample: the logs call and the server start call configure
no timeout at all, so not every bridge-service request carries a bounded
timeout. -/
theorem bridge_client_timeouts_missing :
    clientTimeoutSecs BridgeClientOp.getLogs = none
    ∧ clientTimeoutSecs BridgeClientOp.startMcpServer = none :=
  ⟨rfl, rfl⟩

/-!
Concrete fixtures for scenario theorems.
-/

/-- A concrete provider used in scenario theorems. -/
def providerA : AIProviderConfig where
  id := "p1"
  provider_type := AIProviderType.openai
  name := "A"
  enabled := true
  is_default := false
  api_key := "k"
  base_url := none
  azure_endpoint := none
  azure_deployment := none
  azure_api_version := none
  custom_headers := none
  selected_models := none
  connection_status := none
  last_tested_at := none

/-- A provider with the same name as `providerA` but a different id. -/
def providerB : AIProviderConfig := { providerA with id := "p2" }

/-- A concrete model used in scenario theorems. -/
def modelA : ModelConfig where
  id := "m1"
  provider_id := "p1"
  name := "gpt"
  display_name := "GPT"
  enabled := true
  is_default := false
  max_tokens := none
  temperature := none
  top_p := none
  frequency_penalty := none
  presence_penalty := none
  supports_vision := none
  supports_tools := none
  supports_streaming := none
  context_window := none

/-- A concrete MCP server used in scenario theorems. -/
def serverA : McpServerConfig where
  id := "s1"
  name := "A"
  command := "run"
  args := none
  cwd := none
  env := none
  enabled := true
  auto_start := false

/-- A second MCP server with a different id and name. -/
def serverB : McpServerConfig := { serverA with id := "s2", name := "B" }

/-- C2 (amended): the provider mutations validate only the id, never the
name: `add_provider` rejects a duplicate id leaving the collection
unchanged and otherwise appends the entry whatever its name;
`update_provider` rejects an absent id leaving the collection unchanged
and otherwise replaces the entry at the id's position whatever its name.
So id uniqueness is preserved, but name uniqueness across providers is not
enforced. -/
theorem provider_mutations_check_only_id (write : Except String Unit)
    (config : ProvidersConfig) (provider : AIProviderConfig) :
    (config.providers.any (fun p => p.id == provider.id) = true →
      add_provider write config provider
        = (ApiResponse.err "提供商 ID 已存在", config))
    ∧ (config.providers.any (fun p => p.id == provider.id) = false →
      add_provider (Except.ok ()) config provider
        = (ApiResponse.ok provider,
           { config with providers := config.providers ++ [provider] }))
    ∧ (config.providers.findIdx? (fun p => p.id == provider.id) = none →
      update_provider write config provider
        = (ApiResponse.err "提供商不存在", config))
    ∧ (∀ index,
        config.providers.findIdx? (fun p => p.id == provider.id) = some index →
        update_provider (Except.ok ()) config provider
          = (ApiResponse.ok provider,
             { config with providers := config.providers.set index provider })) := by
  refine ⟨fun h => ?_, fun h => ?_, fun h => ?_, fun index h => ?_⟩
  · simp [add_provider, h]
  · simp [add_provider, h]
  · simp [update_provider, h]
  · simp [update_provider, h]

/-- C2 counterexample: adding a provider whose name equals an existing
provider's name (with a fresh id) is NOT rejected: the call succeeds and
the stored collection gains the duplicate-named entry. -/
theorem add_provider_accepts_duplicate_name :
    providerA.name = providerB.name
    ∧ providerA.id ≠ providerB.id
    ∧ (add_provider (Except.ok ())
        { version := 1, providers := [providerA] } providerB).1.success = true
    ∧ (add_provider (Except.ok ())
        { version := 1, providers := [providerA] } providerB).2.providers
      = [providerA, providerB] := by
  refine ⟨rfl, by decide, rfl, rfl⟩

/-- C2 witness: re-adding `providerA` is rejected with the collection
unchanged; adding the duplicate-named `providerB` is accepted. -/
theorem provider_mutations_check_only_id_witness :
    add_provider (Except.ok ()) { version := 1, providers := [providerA] } providerA
      = (ApiResponse.err "提供商 ID 已存在", { version := 1, providers := [providerA] })
    ∧ add_provider (Except.ok ()) { version := 1, providers := [providerA] } providerB
      = (ApiResponse.ok providerB, { version := 1, providers := [providerA, providerB] }) := by
  constructor
  · exact (provider_mutations_check_only_id (Except.ok ())
      { version := 1, providers := [providerA] } providerA).1 (by decide)
  · have h := (provider_mutations_check_only_id (Except.ok ())
      { version := 1, providers := [providerA] } providerB).2.1 (by decide)
    simpa using h

/-- C6: adding a provider, model or MCP server whose id already occurs in
the stored collection reports the conflict and leaves the collection
unchanged (the rejection happens before any write). -/
theorem add_duplicate_id_conflict (wp wm ws : Except String Unit)
    (pc : ProvidersConfig) (p : AIProviderConfig) (mc : ModelsConfig)
    (m : ModelConfig) (sc : McpServersConfig) (s : McpServerConfig) :
    (pc.providers.any (fun q => q.id == p.id) = true →
      add_provider wp pc p = (ApiResponse.err "提供商 ID 已存在", pc))
    ∧ (mc.models.any (fun q => q.id == m.id) = true →
      add_model wm mc m = (ApiResponse.err "模型 ID 已存在", mc))
    ∧ (sc.servers.any (fun q => q.id == s.id) = true →
      add_mcp_server ws sc s = (ApiResponse.err "MCP 服务器 ID 已存在", sc)) := by
  refine ⟨fun h => ?_, fun h => ?_, fun h => ?_⟩
  · simp [add_provider, h]
  · simp [add_model, h]
  · simp [add_mcp_server, h]

/-- C6 witness: re-adding the stored provider, model and MCP server each
reports the id conflict with the stored collection unchanged. -/
theorem add_duplicate_id_conflict_witness :
    add_provider (Except.ok ()) { version := 1, providers := [providerA] } providerA
      = (ApiResponse.err "提供商 ID 已存在", { version := 1, providers := [providerA] })
    ∧ add_model (Except.ok ()) { version := 1, models := [modelA] } modelA
      = (ApiResponse.err "模型 ID 已存在", { version := 1, models := [modelA] })
    ∧ add_mcp_server (Except.ok ()) { version := 1, servers := [serverA] }
        { serverA with name := "other" }
      = (ApiResponse.err "MCP 服务器 ID 已存在", { version := 1, servers := [serverA] }) :=
  ⟨(add_duplicate_id_conflict (Except.ok ()) (Except.ok ()) (Except.ok ())
      { version := 1, providers := [providerA] } providerA
      { version := 1, models := [modelA] } modelA
      { version := 1, servers := [serverA] } { serverA with name := "other" }).1 (by decide),
   (add_duplicate_id_conflict (Except.ok ()) (Except.ok ()) (Except.ok ())
      { version := 1, providers := [providerA] } providerA
      { version := 1, models := [modelA] } modelA
      { version := 1, servers := [serverA] } { serverA with name := "other" }).2.1 (by decide),
   (add_duplicate_id_conflict (Except.ok ()) (Except.ok ()) (Except.ok ())
      { version := 1, providers := [providerA] } providerA
      { version := 1, models := [modelA] } modelA
      { version := 1, servers := [serverA] } { serverA with name := "other" }).2.2 (by decide)⟩

/-- C4: when the id is present, `update_mcp_server` rejects a new name
already used by a different server, leaving the stored collection
unchanged; and under the name-uniqueness invariant, an update keeping the
server's own unchanged name succeeds and replaces the entry in place. -/
theorem update_mcp_server_name_collision (write : Except String Unit)
    (config : McpServersConfig) (server old : McpServerConfig) :
    ((config.servers.findIdx? (fun s => s.id == server.id)).isSome →
      config.servers.any (fun s => s.id != server.id && s.name == server.name) = true →
      update_mcp_server write config server
        = (ApiResponse.err "MCP 服务器名称已存在", config))
    ∧ (old ∈ config.servers → old.id = server.id → old.name = server.name →
       config.servers.Pairwise (fun a b => a.name ≠ b.name) →
       ∃ index, config.servers.findIdx? (fun s => s.id == server.id) = some index
         ∧ update_mcp_server (Except.ok ()) config server
             = (ApiResponse.ok server,
                { config with servers := config.servers.set index server })) := by
  constructor
  · intro hsome hany
    obtain ⟨i, hi⟩ := Option.isSome_iff_exists.mp hsome
    simp [update_mcp_server, hi, hany]
  · intro hmem hid hname hpair
    have hidx : (config.servers.findIdx? (fun s => s.id == server.id)).isSome := by
      cases hfi : config.servers.findIdx? (fun s => s.id == server.id) with
      | some i => simp
      | none =>
          have hall := List.findIdx?_eq_none_iff.mp hfi
          have hold := hall old hmem
          simp [hid] at hold
    obtain ⟨index, hindex⟩ := Option.isSome_iff_exists.mp hidx
    refine ⟨index, hindex, ?_⟩
    have hany : config.servers.any
        (fun s => s.id != server.id && s.name == server.name) = false := by
      rw [List.any_eq_false]
      intro s hs
      simp only [Bool.and_eq_true, bne_iff_ne, beq_iff_eq, not_and]
      intro hsid hsname
      have hso : s ≠ old := fun heq => hsid (heq ▸ hid)
      have hnames : s.name ≠ old.name :=
        hpair.forall (fun _ _ hab => hab.symm) hs hmem hso
      exact hnames (hsname.trans hname.symm)
    simp [update_mcp_server, hindex, hany]

/-- C4 witness: renaming server s1 to the name of server s2 is rejected
with the collection unchanged; re-submitting s1 with its own name
succeeds and replaces it in place. -/
theorem update_mcp_server_name_collision_witness :
    update_mcp_server (Except.ok ()) { version := 1, servers := [serverA, serverB] }
        { serverA with name := "B" }
      = (ApiResponse.err "MCP 服务器名称已存在",
         { version := 1, servers := [serverA, serverB] })
    ∧ ∃ index,
        ({ version := 1, servers := [serverA, serverB] } :
            McpServersConfig).servers.findIdx? (fun s => s.id == serverA.id)
          = some index
        ∧ update_mcp_server (Except.ok ())
            { version := 1, servers := [serverA, serverB] } serverA
          = (ApiResponse.ok serverA,
             { version := 1,
               servers := ([serverA, serverB] : List McpServerConfig).set index serverA }) := by
  constructor
  · exact (update_mcp_server_name_collision (Except.ok ())
      { version := 1, servers := [serverA, serverB] }
      { serverA with name := "B" } serverA).1 (by decide) (by decide)
  · exact (update_mcp_server_name_collision (Except.ok ())
      { version := 1, servers := [serverA, serverB] }
      serverA serverA).2 (by decide) rfl rfl (by decide)

/-- C9: `delete_mcp_server` always issues the stop POST to the bridge
service before it reads the stored collection (the effect trace begins
with the main-config read, the POST to the stop endpoint, then the
collection read); the outcome of the stop request is discarded (the
result is identical for any two stop outcomes); and when the id is absent
the command reports not-found with the collection unchanged and no write,
the stop request having already been sent. -/
theorem delete_mcp_server_stops_first (write : Except String Unit)
    (mainConfig : BridgeConfig) (r r2 : HttpResponse)
    (config : McpServersConfig) (id : String) :
    (delete_mcp_server write mainConfig r config id).1.take 3
        = [Effect.readMainConfigFile,
           Effect.httpPost (bridgeUrl mainConfig ++ "/api/mcp/servers/" ++ id ++ "/stop"),
           Effect.readServersFile]
    ∧ delete_mcp_server write mainConfig r config id
        = delete_mcp_server write mainConfig r2 config id
    ∧ ((∀ s ∈ config.servers, (s.id == id) = false) →
        delete_mcp_server write mainConfig r config id
          = ([Effect.readMainConfigFile,
              Effect.httpPost (bridgeUrl mainConfig ++ "/api/mcp/servers/" ++ id ++ "/stop"),
              Effect.readServersFile],
             (ApiResponse.err "MCP 服务器不存在", config))) := by
  refine ⟨?_, rfl, fun h => ?_⟩
  · simp only [delete_mcp_server]
    split
    · rfl
    · split <;> rfl
  · have hfil : config.servers.filter (fun s => !(s.id == id)) = config.servers := by
      apply List.filter_eq_self.mpr
      intro s hs
      simp [h s hs]
    simp [delete_mcp_server, hfil]

/-- C9 witness: deleting an absent id still produces the trace whose
second step is the stop POST, and reports not-found with the collection
unchanged. -/
theorem delete_mcp_server_stops_first_witness :
    delete_mcp_server (Except.ok ()) BridgeConfig.default
        (HttpResponse.transportError "down") { version := 1, servers := [serverA] } "x"
      = ([Effect.readMainConfigFile,
          Effect.httpPost (bridgeUrl BridgeConfig.default ++ "/api/mcp/servers/" ++ "x" ++ "/stop"),
          Effect.readServersFile],
         (ApiResponse.err "MCP 服务器不存在", { version := 1, servers := [serverA] })) :=
  (delete_mcp_server_stops_first (Except.ok ()) BridgeConfig.default
      (HttpResponse.transportError "down") (HttpResponse.transportError "down")
      { version := 1, servers := [serverA] } "x").2.2 (by decide)
